import Mathlib

/-!
Verification of the share-payload protocol of `airgap-json-formatter`
(`src/share.rs`), shallowly embedded in Lean.

Byte strings are modelled as `List Nat` with every element below 256.
The pipeline functions of the repository (`create_share_payload`,
`decode_share_payload`, `decrypt_payload`, `extract_header`,
`validate_timestamp`, `decompress_raw`, `compress_with_header`,
`derive_key_from_passphrase`, `encrypt_payload`, `generate_random_key`,
`encode_base64url`, `decode_base64url`, `ShareError.error_code`) are
translated statement by statement from the source.

The external crates the source calls are modelled as follows:
* `base64` (URL_SAFE_NO_PAD engine): implemented concretely
  (`encode_base64url` / `decode_base64url`), including the strict
  rejection of padding, non-alphabet characters and nonzero trailing
  bits that the engine's default configuration performs;
* `flate2` (DEFLATE), `aes_gcm` (AES-256-GCM) and `pbkdf2` are
  abstracted into an `Externals` record of pure functions; theorems
  that depend on their behaviour take the crate's documented contract
  (for instance, that inflating a deflated stream restores it) as an
  explicit hypothesis;
* `getrandom` is modelled by an explicit entropy stream `g : Nat → Nat`
  threaded through the calls in the order the source draws bytes
  (it cannot fail in the model; the source maps its errors to
  `EncryptionFailed` but they do not occur in the browser target);
* the injectable clock `get_unix_timestamp` becomes an explicit
  timestamp argument (`ts` on the encode path, `now` on the decode
  path), exactly as the source's test harness injects it;
* Rust's `String::from_utf8` is modelled by a concrete UTF-8 validity
  checker `isValidUtf8` over the byte list.
-/

-- ============================================================================
-- Constants (src/share.rs lines 14-22)
-- ============================================================================

def VERSION_RANDOM_KEY : Nat := 0x01

def VERSION_PASSPHRASE : Nat := 0x02

def PBKDF2_ITERATIONS : Nat := 100000

def SALT_LENGTH : Nat := 16

def NONCE_LENGTH : Nat := 12

def HEADER_LENGTH : Nat := 9

def EXPIRATION_SECS : Nat := 300

def MAX_PAYLOAD_CHARS : Nat := 6000

def MAX_DECOMPRESSED_SIZE : Nat := 10 * 1024 * 1024

-- ============================================================================
-- Types (src/share.rs lines 28-52)
-- ============================================================================

structure SharePayload where
  data : List Nat
  key : Option (List Nat)
deriving DecidableEq, Repr

structure DecodeResult where
  json : List Nat
  created_at : Nat
  mode : String
deriving DecidableEq, Repr

inductive ShareError where
  | CompressionFailed
  | EncryptionFailed
  | PayloadTooLarge
  | EmptyInput
  | KeyDerivationFailed
  | Expired
  | InvalidPayload
  | DecryptionFailed
  | InvalidBase64
deriving DecidableEq, Repr

instance instDecEqExcept {ε α : Type} [DecidableEq ε] [DecidableEq α] :
    DecidableEq (Except ε α) := fun a b =>
  match a, b with
  | .ok x, .ok y =>
    decidable_of_iff (x = y) ⟨fun h => by rw [h], fun h => by injection h⟩
  | .error x, .error y =>
    decidable_of_iff (x = y) ⟨fun h => by rw [h], fun h => by injection h⟩
  | .ok _, .error _ => .isFalse (fun h => by injection h)
  | .error _, .ok _ => .isFalse (fun h => by injection h)

/-- Stable machine-readable error codes (src/share.rs lines 77-91). -/
def ShareError.error_code : ShareError → String
  | .Expired => "expired"
  | .InvalidPayload => "invalid_payload"
  | .DecryptionFailed => "decryption_failed"
  | .InvalidBase64 => "invalid_base64"
  | .CompressionFailed => "invalid_payload"
  | .EncryptionFailed => "decryption_failed"
  | .PayloadTooLarge => "invalid_payload"
  | .EmptyInput => "invalid_payload"
  | .KeyDerivationFailed => "decryption_failed"

-- ============================================================================
-- Model of the external crates
-- ============================================================================

/-- Interface abstracting the external crates used by `src/share.rs`:
`flate2` (`deflate` for the `DeflateEncoder`, `inflateRun` for the
streaming `DeflateDecoder`, returning the bytes produced before the
stream ends or fails together with `true` when it ended cleanly and
`false` when the next read would error), `aes_gcm`
(`aesEncrypt key nonce plaintext`, `aesDecrypt key nonce ciphertext`,
the latter returning `none` on authentication failure) and `pbkdf2`
(`pbkdf2 passphrase salt`, always 32 bytes). -/
structure Externals where
  deflate : List Nat → List Nat
  inflateRun : List Nat → List Nat × Bool
  aesEncrypt : List Nat → List Nat → List Nat → List Nat
  aesDecrypt : List Nat → List Nat → List Nat → Option (List Nat)
  pbkdf2 : List Nat → List Nat → List Nat

/-- The next `n` bytes drawn from the entropy stream `g`
(model of `getrandom::getrandom` filling an `n`-byte buffer). -/
def randBytes (g : Nat → Nat) (n : Nat) : List Nat :=
  (List.range n).map g

/-- The entropy stream after `n` bytes have been drawn. -/
def advance (g : Nat → Nat) (n : Nat) : Nat → Nat :=
  fun i => g (i + n)

-- ============================================================================
-- Big-endian u64 (model of u64::to_be_bytes / from_be_bytes)
-- ============================================================================

def u64BE (n : Nat) : List Nat :=
  [n / 2 ^ 56 % 256, n / 2 ^ 48 % 256, n / 2 ^ 40 % 256, n / 2 ^ 32 % 256,
   n / 2 ^ 24 % 256, n / 2 ^ 16 % 256, n / 2 ^ 8 % 256, n % 256]

def fromBE8 (l : List Nat) : Nat :=
  l.foldl (fun acc b => acc * 256 + b) 0

-- ============================================================================
-- base64url without padding (model of base64::URL_SAFE_NO_PAD)
-- ============================================================================

/-- ASCII code of the base64url alphabet character for a sextet value. -/
def b64c (n : Nat) : Nat :=
  if n < 26 then 65 + n
  else if n < 52 then 97 + (n - 26)
  else if n < 62 then 48 + (n - 52)
  else if n = 62 then 45
  else 95

/-- Sextet value of a base64url alphabet character, `none` for a
character outside the alphabet. -/
def b64v (c : Nat) : Option Nat :=
  if 65 ≤ c ∧ c ≤ 90 then some (c - 65)
  else if 97 ≤ c ∧ c ≤ 122 then some (26 + (c - 97))
  else if 48 ≤ c ∧ c ≤ 57 then some (52 + (c - 48))
  else if c = 45 then some 62
  else if c = 95 then some 63
  else none

/-- base64url encoding without padding (src/share.rs lines 131-133);
the output is the list of ASCII character codes, so its length is the
character count of the Rust string. -/
def encode_base64url : List Nat → List Nat
  | [] => []
  | [a] => [b64c (a / 4), b64c (a % 4 * 16)]
  | [a, b] => [b64c (a / 4), b64c (a % 4 * 16 + b / 16), b64c (b % 16 * 4)]
  | a :: b :: c :: rest =>
      b64c (a / 4) :: b64c (a % 4 * 16 + b / 16) :: b64c (b % 16 * 4 + c / 64)
        :: b64c (c % 64) :: encode_base64url rest

/-- Strict base64url decoding: rejects non-alphabet characters, an
input length of 1 mod 4 and nonzero trailing bits, as the `base64`
crate's URL_SAFE_NO_PAD engine does by default. -/
def decode_base64url_aux : List Nat → Option (List Nat)
  | [] => some []
  | [c1, c2] =>
    match b64v c1, b64v c2 with
    | some v1, some v2 =>
      if v2 % 16 = 0 then some [v1 * 4 + v2 / 16] else none
    | _, _ => none
  | [c1, c2, c3] =>
    match b64v c1, b64v c2, b64v c3 with
    | some v1, some v2, some v3 =>
      if v3 % 4 = 0 then some [v1 * 4 + v2 / 16, v2 % 16 * 16 + v3 / 4]
      else none
    | _, _, _ => none
  | c1 :: c2 :: c3 :: c4 :: rest =>
    match b64v c1, b64v c2, b64v c3, b64v c4, decode_base64url_aux rest with
    | some v1, some v2, some v3, some v4, some bs =>
      some ((v1 * 4 + v2 / 16) :: (v2 % 16 * 16 + v3 / 4)
        :: (v3 % 4 * 64 + v4) :: bs)
    | _, _, _, _, _ => none
  | [_] => none

/-- base64url decoding (src/share.rs lines 231-235). -/
def decode_base64url (input : List Nat) : Except ShareError (List Nat) :=
  match decode_base64url_aux input with
  | some bytes => .ok bytes
  | none => .error .InvalidBase64

-- ============================================================================
-- UTF-8 validity (model of String::from_utf8)
-- ============================================================================

def isUtf8Cont (b : Nat) : Bool := 128 ≤ b && b < 192

/-- Fuel-driven UTF-8 validation loop; with fuel at least the list
length it decides whether the bytes are valid UTF-8 (the ranges are
those of the Unicode standard, which Rust's `String::from_utf8`
implements: first byte C2..DF, E0..EF with E0/ED restrictions,
F0..F4 with F0/F4 restrictions). -/
def utf8Go : Nat → List Nat → Bool
  | _, [] => true
  | 0, _ :: _ => false
  | fuel + 1, b :: rest =>
    if b < 128 then utf8Go fuel rest
    else if b < 194 then false
    else if b < 224 then
      match rest with
      | b1 :: r => isUtf8Cont b1 && utf8Go fuel r
      | [] => false
    else if b < 240 then
      match rest with
      | b1 :: b2 :: r =>
        (if b = 224 then decide (160 ≤ b1) && decide (b1 < 192)
         else if b = 237 then decide (128 ≤ b1) && decide (b1 < 160)
         else isUtf8Cont b1) && isUtf8Cont b2 && utf8Go fuel r
      | _ => false
    else if b < 245 then
      match rest with
      | b1 :: b2 :: b3 :: r =>
        (if b = 240 then decide (144 ≤ b1) && decide (b1 < 192)
         else if b = 244 then decide (128 ≤ b1) && decide (b1 < 144)
         else isUtf8Cont b1) && isUtf8Cont b2 && isUtf8Cont b3 && utf8Go fuel r
      | _ => false
    else false

def isValidUtf8 (l : List Nat) : Bool := utf8Go l.length l

-- ============================================================================
-- Encoding functions (src/share.rs lines 135-225)
-- ============================================================================

/-- Mode selection predicate: `passphrase.is_some_and(|p| !p.is_empty())`
(src/share.rs line 189). -/
def is_passphrase_mode : Option (List Nat) → Bool
  | some p => !p.isEmpty
  | none => false

/-- Frame and compress (src/share.rs lines 135-147): the header is one
version byte followed by the 8-byte big-endian timestamp, then the JSON
bytes; the whole frame is DEFLATE-compressed.  Writing into an
in-memory buffer cannot fail, so the `CompressionFailed` arms of the
source are not reachable on this path. -/
def compress_with_header (E : Externals) (ts : Nat) (json : List Nat)
    (version : Nat) : Except ShareError (List Nat) :=
  .ok (E.deflate (version :: u64BE ts ++ json))

/-- PBKDF2-HMAC-SHA256 key derivation (src/share.rs lines 149-156);
the source always returns `Ok`. -/
def derive_key_from_passphrase (E : Externals) (passphrase salt : List Nat) :
    Except ShareError (List Nat) :=
  .ok (E.pbkdf2 passphrase salt)

/-- AES-256-GCM encryption with a fresh random nonce prepended
(src/share.rs lines 158-173). -/
def encrypt_payload (E : Externals) (g : Nat → Nat) (data key_bytes : List Nat) :
    Except ShareError (List Nat) :=
  let nonce_bytes := randBytes g NONCE_LENGTH
  .ok (nonce_bytes ++ E.aesEncrypt key_bytes nonce_bytes data)

/-- Fresh 32-byte random key (src/share.rs lines 175-179). -/
def generate_random_key (g : Nat → Nat) : Except ShareError (List Nat) :=
  .ok (randBytes g 32)

/-- Encoder orchestration (src/share.rs lines 181-225).  The entropy
stream is consumed in the order the source draws bytes: in passphrase
mode 16 salt bytes then 12 nonce bytes, in random-key mode 32 key bytes
then 12 nonce bytes. -/
def create_share_payload (E : Externals) (g : Nat → Nat) (ts : Nat)
    (json : List Nat) (passphrase : Option (List Nat)) :
    Except ShareError SharePayload :=
  if json = [] then .error .EmptyInput
  else
    let version := if is_passphrase_mode passphrase then VERSION_PASSPHRASE
      else VERSION_RANDOM_KEY
    match compress_with_header E ts json version with
    | .error e => .error e
    | .ok compressed =>
      if is_passphrase_mode passphrase then
        let salt := randBytes g SALT_LENGTH
        match derive_key_from_passphrase E (passphrase.getD []) salt with
        | .error e => .error e
        | .ok key =>
          match encrypt_payload E (advance g SALT_LENGTH) compressed key with
          | .error e => .error e
          | .ok encrypted =>
            let payload := salt ++ encrypted
            let data := encode_base64url payload
            if data.length > MAX_PAYLOAD_CHARS then .error .PayloadTooLarge
            else .ok ⟨data, none⟩
      else
        match generate_random_key g with
        | .error e => .error e
        | .ok key_bytes =>
          match encrypt_payload E (advance g 32) compressed key_bytes with
          | .error e => .error e
          | .ok encrypted =>
            let data := encode_base64url encrypted
            if data.length > MAX_PAYLOAD_CHARS then .error .PayloadTooLarge
            else .ok ⟨data, some (encode_base64url key_bytes)⟩

-- ============================================================================
-- Decoding functions (src/share.rs lines 231-357)
-- ============================================================================

/-- AES-256-GCM decryption (src/share.rs lines 237-253): the first 12
bytes of the ciphertext input are the nonce, the rest is the
authenticated ciphertext. -/
def decrypt_payload (E : Externals) (ciphertext key_bytes : List Nat) :
    Except ShareError (List Nat) :=
  if key_bytes.length ≠ 32 then .error .InvalidPayload
  else if ciphertext.length < NONCE_LENGTH + 1 then .error .InvalidPayload
  else
    let (nonce_bytes, encrypted) := ciphertext.splitAt NONCE_LENGTH
    match E.aesDecrypt key_bytes nonce_bytes encrypted with
    | some plaintext => .ok plaintext
    | none => .error .DecryptionFailed

/-- Header extraction (src/share.rs lines 255-266): version byte,
8-byte big-endian timestamp, remainder. -/
def extract_header (data : List Nat) : Except ShareError (Nat × Nat × List Nat) :=
  if data.length < HEADER_LENGTH then .error .InvalidPayload
  else
    match data with
    | [] => .error .InvalidPayload
    | version :: rest => .ok (version, fromBE8 (rest.take 8), rest.drop 8)

/-- Expiration check (src/share.rs lines 268-274); `now` is the
injected clock reading and the subtraction saturates exactly as
`u64::saturating_sub` does. -/
def validate_timestamp (now created_at : Nat) : Except ShareError Unit :=
  if now - created_at > EXPIRATION_SECS then .error .Expired
  else .ok ()

/-- Bounded decompression (src/share.rs lines 277-297): the streaming
decoder is read in chunks; output accumulated past 10 MiB aborts with
`InvalidPayload` (the size check fires before a later read error can
surface, since all output precedes the failure point of the stream),
and a stream that fails before that aborts with `CompressionFailed`
(the error mapping on the `read` call, line 286). -/
def decompress_raw (E : Externals) (compressed : List Nat) :
    Except ShareError (List Nat) :=
  let (decompressed, ended) := E.inflateRun compressed
  if decompressed.length > MAX_DECOMPRESSED_SIZE then .error .InvalidPayload
  else if ended then .ok decompressed
  else .error .CompressionFailed

/-- The base64 / layout / decryption stage of the decoder
(src/share.rs lines 310-329), returning the decrypted frame together
with the version implied by `is_passphrase`. -/
def decode_decrypt_stage (E : Externals) (data key_or_passphrase : List Nat)
    (is_passphrase : Bool) : Except ShareError (List Nat × Nat) :=
  match decode_base64url data with
  | .error e => .error e
  | .ok raw =>
    if is_passphrase then
      if raw.length < SALT_LENGTH + NONCE_LENGTH + 1 then .error .InvalidPayload
      else
        let (salt, ciphertext) := raw.splitAt SALT_LENGTH
        match derive_key_from_passphrase E key_or_passphrase salt with
        | .error e => .error e
        | .ok key =>
          match decrypt_payload E ciphertext key with
          | .error e => .error e
          | .ok decrypted => .ok (decrypted, VERSION_PASSPHRASE)
    else
      match decode_base64url key_or_passphrase with
      | .error e => .error e
      | .ok key_bytes =>
        if key_bytes.length ≠ 32 then .error .InvalidPayload
        else
          match decrypt_payload E raw key_bytes with
          | .error e => .error e
          | .ok decrypted => .ok (decrypted, VERSION_RANDOM_KEY)

/-- Decoder orchestration (src/share.rs lines 305-357). -/
def decode_share_payload (E : Externals) (now : Nat)
    (data key_or_passphrase : List Nat) (is_passphrase : Bool) :
    Except ShareError DecodeResult :=
  match decode_decrypt_stage E data key_or_passphrase is_passphrase with
  | .error e => .error e
  | .ok (decrypted, expected_version) =>
    match decompress_raw E decrypted with
    | .error e => .error e
    | .ok decompressed =>
      match extract_header decompressed with
      | .error e => .error e
      | .ok (version, timestamp, json_bytes) =>
        if version ≠ expected_version then .error .InvalidPayload
        else
          match validate_timestamp now timestamp with
          | .error e => .error e
          | .ok _ =>
            if isValidUtf8 json_bytes then
              .ok ⟨json_bytes, timestamp,
                if version = VERSION_RANDOM_KEY then "quick" else "protected"⟩
            else .error .InvalidPayload

/-- Observer: the base64url-encoded payload string the encoder builds
and checks against `MAX_PAYLOAD_CHARS` (read off the two branches of
`create_share_payload`, src/share.rs lines 205-222). -/
def share_data (E : Externals) (g : Nat → Nat) (ts : Nat) (json : List Nat)
    (passphrase : Option (List Nat)) : List Nat :=
  if is_passphrase_mode passphrase then
    encode_base64url (randBytes g SALT_LENGTH ++
      (randBytes (advance g SALT_LENGTH) NONCE_LENGTH ++
        E.aesEncrypt (E.pbkdf2 (passphrase.getD []) (randBytes g SALT_LENGTH))
          (randBytes (advance g SALT_LENGTH) NONCE_LENGTH)
          (E.deflate (VERSION_PASSPHRASE :: u64BE ts ++ json))))
  else
    encode_base64url (randBytes (advance g 32) NONCE_LENGTH ++
      E.aesEncrypt (randBytes g 32) (randBytes (advance g 32) NONCE_LENGTH)
        (E.deflate (VERSION_RANDOM_KEY :: u64BE ts ++ json)))

-- ============================================================================
-- Helper lemmas
-- ============================================================================

theorem b64v_b64c (v : Nat) (h : v < 64) : b64v (b64c v) = some v := by
  unfold b64c b64v
  split_ifs <;> simp_all <;> omega

theorem decode_encode_aux : ∀ bs : List Nat, (∀ b ∈ bs, b < 256) →
    decode_base64url_aux (encode_base64url bs) = some bs
  | [], _ => rfl
  | [a], h => by
    have ha : a < 256 := h a (by simp)
    have h1 : b64v (b64c (a / 4)) = some (a / 4) := b64v_b64c _ (by omega)
    have h2 : b64v (b64c (a % 4 * 16)) = some (a % 4 * 16) := b64v_b64c _ (by omega)
    simp only [encode_base64url, decode_base64url_aux, h1, h2]
    rw [if_pos (by omega)]
    congr 2
    omega
  | [a, b], h => by
    have ha : a < 256 := h a (by simp)
    have hb : b < 256 := h b (by simp)
    have h1 : b64v (b64c (a / 4)) = some (a / 4) := b64v_b64c _ (by omega)
    have h2 : b64v (b64c (a % 4 * 16 + b / 16)) = some (a % 4 * 16 + b / 16) :=
      b64v_b64c _ (by omega)
    have h3 : b64v (b64c (b % 16 * 4)) = some (b % 16 * 4) := b64v_b64c _ (by omega)
    simp only [encode_base64url, decode_base64url_aux, h1, h2, h3]
    rw [if_pos (by omega)]
    simp only [Option.some.injEq, List.cons.injEq, and_true]
    omega
  | a :: b :: c :: rest, h => by
    have ha : a < 256 := h a (by simp)
    have hb : b < 256 := h b (by simp)
    have hc : c < 256 := h c (by simp)
    have ih := decode_encode_aux rest (fun x hx => h x (by simp [hx]))
    have h1 : b64v (b64c (a / 4)) = some (a / 4) := b64v_b64c _ (by omega)
    have h2 : b64v (b64c (a % 4 * 16 + b / 16)) = some (a % 4 * 16 + b / 16) :=
      b64v_b64c _ (by omega)
    have h3 : b64v (b64c (b % 16 * 4 + c / 64)) = some (b % 16 * 4 + c / 64) :=
      b64v_b64c _ (by omega)
    have h4 : b64v (b64c (c % 64)) = some (c % 64) := b64v_b64c _ (by omega)
    simp only [encode_base64url, decode_base64url_aux, h1, h2, h3, h4, ih]
    simp only [Option.some.injEq, List.cons.injEq, and_true]
    omega

theorem decode_encode_base64url (bs : List Nat) (h : ∀ b ∈ bs, b < 256) :
    decode_base64url (encode_base64url bs) = .ok bs := by
  simp [decode_base64url, decode_encode_aux bs h]

theorem randBytes_length (g : Nat → Nat) (n : Nat) : (randBytes g n).length = n := by
  simp [randBytes]

theorem randBytes_lt (g : Nat → Nat) (hg : ∀ i, g i < 256) (n : Nat) :
    ∀ b ∈ randBytes g n, b < 256 := by
  simp only [randBytes, List.mem_map]
  rintro b ⟨i, _, rfl⟩
  exact hg i

theorem u64BE_length (n : Nat) : (u64BE n).length = 8 := rfl

theorem u64BE_lt (n : Nat) : ∀ b ∈ u64BE n, b < 256 := by
  simp [u64BE]
  omega

theorem fromBE8_u64BE (n : Nat) (h : n < 2 ^ 64) : fromBE8 (u64BE n) = n := by
  simp only [fromBE8, u64BE, List.foldl]
  omega

-- ============================================================================
-- Concrete instances of the external-crate interface, used to
-- instantiate theorems at concrete inputs
-- ============================================================================

/-- Simple concrete instance of the external-crate interface: the
compressor is the identity stream, AES-GCM is modelled by appending a
16-byte tag, PBKDF2 by a constant 32-byte key.  It satisfies the
contracts the theorems assume of the real crates. -/
def toyExt : Externals where
  deflate := fun x => x
  inflateRun := fun c => (c, true)
  aesEncrypt := fun _ _ d => d ++ List.replicate 16 0
  aesDecrypt := fun _ _ c =>
    if c.length < 16 then none else some (c.take (c.length - 16))
  pbkdf2 := fun _ _ => List.replicate 32 0

/-- Variant of `toyExt` whose stream decoder rejects the byte sequence
`[0xFF, 0xFE, 0xFD]` with no output, mirroring real DEFLATE, where that
sequence is an invalid stream (BTYPE = 3 is reserved) — the
repository's own test `test_decompress_invalid_data` feeds exactly
these bytes and asserts an error. -/
def invExt : Externals :=
  { toyExt with inflateRun := fun c =>
      if c = [255, 254, 253] then ([], false) else (c, true) }

/-- Variant of `toyExt` whose stream decoder emits more than the
10 MiB bound before ending. -/
def bigExt : Externals :=
  { toyExt with inflateRun := fun _ =>
      (List.replicate (MAX_DECOMPRESSED_SIZE + 1) 0, true) }

theorem toyExt_inflate_deflate (x : List Nat) :
    toyExt.inflateRun (toyExt.deflate x) = (x, true) := rfl

theorem toyExt_aes_inv (k n d : List Nat) :
    toyExt.aesDecrypt k n (toyExt.aesEncrypt k n d) = some d := by
  simp only [toyExt, List.length_append, List.length_replicate]
  rw [if_neg (by omega)]
  have h : d.length + 16 - 16 = d.length := by omega
  rw [h, List.take_left' rfl]

theorem toyExt_aes_len (k n d : List Nat) :
    (toyExt.aesEncrypt k n d).length = d.length + 16 := by
  simp [toyExt]

theorem toyExt_aes_bytes (k n d : List Nat) (hd : ∀ b ∈ d, b < 256) :
    ∀ b ∈ toyExt.aesEncrypt k n d, b < 256 := by
  intro b hb
  simp only [toyExt, List.mem_append] at hb
  rcases hb with h | h
  · exact hd b h
  · have := List.eq_of_mem_replicate h
    omega

theorem toyExt_pbkdf2_len (p s : List Nat) : (toyExt.pbkdf2 p s).length = 32 := by
  simp [toyExt]

theorem toyExt_deflate_bytes (x : List Nat) (h : ∀ b ∈ x, b < 256) :
    ∀ b ∈ toyExt.deflate x, b < 256 := h

-- ============================================================================
-- Claim C8 — empty input rejection
-- ============================================================================

/-- C8: `create_share_payload` fails with `EmptyInput` whenever the
json argument is empty, in both key-sourcing modes (any passphrase
argument), before any other processing occurs (for every model of the
external crates, every entropy stream and every timestamp). -/
theorem c8_empty_input (E : Externals) (g : Nat → Nat) (ts : Nat)
    (p : Option (List Nat)) :
    create_share_payload E g ts [] p = .error .EmptyInput := rfl

-- ============================================================================
-- Claim C9 — error code mapping
-- ============================================================================

/-- C9: `error_code` maps every `ShareError` variant to exactly the
stable machine code of the specification's table. -/
theorem c9_error_codes :
    ShareError.error_code .Expired = "expired" ∧
    ShareError.error_code .InvalidPayload = "invalid_payload" ∧
    ShareError.error_code .CompressionFailed = "invalid_payload" ∧
    ShareError.error_code .PayloadTooLarge = "invalid_payload" ∧
    ShareError.error_code .EmptyInput = "invalid_payload" ∧
    ShareError.error_code .DecryptionFailed = "decryption_failed" ∧
    ShareError.error_code .EncryptionFailed = "decryption_failed" ∧
    ShareError.error_code .KeyDerivationFailed = "decryption_failed" ∧
    ShareError.error_code .InvalidBase64 = "invalid_base64" :=
  ⟨rfl, rfl, rfl, rfl, rfl, rfl, rfl, rfl, rfl⟩

-- ============================================================================
-- Claim C2 — expiration check
-- ============================================================================

/-- C2: with age computed as the saturating subtraction
`now - created_at` (never underflowing), the decoder fails with
`Expired` exactly when the age exceeds 300 seconds: whenever the stages
before the expiration check succeed and the version matches,
`decode_share_payload` returns `Expired` if and only if
`now - t > 300`; moreover `validate_timestamp` itself returns `Expired`
iff `now - t > 300`, and a `created_at` in the future (age saturated
to 0) always passes the check. -/
theorem c2_expiration (E : Externals) (now : Nat) (data kp : List Nat)
    (isP : Bool) (decrypted : List Nat) (ev : Nat) (decompressed : List Nat)
    (v t : Nat) (rest : List Nat)
    (hstage : decode_decrypt_stage E data kp isP = .ok (decrypted, ev))
    (hdec : decompress_raw E decrypted = .ok decompressed)
    (hhdr : extract_header decompressed = .ok (v, t, rest))
    (hv : v = ev) :
    (decode_share_payload E now data kp isP = .error .Expired ↔
      now - t > EXPIRATION_SECS) ∧
    (validate_timestamp now t = .error .Expired ↔ now - t > EXPIRATION_SECS) ∧
    (now ≤ t → validate_timestamp now t = .ok ()) := by
  subst hv
  have hval : ∀ h : now - t > EXPIRATION_SECS,
      validate_timestamp now t = .error .Expired := by
    intro h
    unfold validate_timestamp
    rw [if_pos h]
  have hval2 : ∀ h : ¬ now - t > EXPIRATION_SECS,
      validate_timestamp now t = .ok () := by
    intro h
    unfold validate_timestamp
    rw [if_neg h]
  refine ⟨?_, ?_, ?_⟩
  · unfold decode_share_payload
    rw [hstage]
    dsimp only
    rw [hdec]
    dsimp only
    rw [hhdr]
    dsimp only
    rw [if_neg (by simp)]
    by_cases h : now - t > EXPIRATION_SECS
    · rw [hval h]
      simp [h]
    · rw [hval2 h]
      dsimp only
      constructor
      · intro hcontra
        by_cases hu : isValidUtf8 rest = true <;> simp [hu] at hcontra
      · intro hcontra
        omega
  · constructor
    · intro h
      by_cases hc : now - t > EXPIRATION_SECS
      · exact hc
      · rw [hval2 hc] at h
        simp at h
    · exact hval
  · intro h
    apply hval2
    omega

-- ============================================================================
-- Claim C3 — decode-side decompression errors (corrected)
-- ============================================================================

/-- C3 counterexample: on the repository's own invalid-stream test
input `[0xFF, 0xFE, 0xFD]` (an invalid DEFLATE stream — reserved block
type — which `test_decompress_invalid_data` asserts to error), the
decode-side decompression returns `CompressionFailed`, not the
`InvalidPayload` the claim asserts: the source maps errors of the
chunked `read` call to `CompressionFailed` (src/share.rs line 286). -/
theorem c3_counterexample :
    decompress_raw invExt [255, 254, 253] = .error .CompressionFailed := rfl

/-- C3 (amended): during decode-side decompression, output accumulated
past 10 MiB aborts with `InvalidPayload`, while a stream that is not
valid DEFLATE (the decoder fails before the size bound is hit) aborts
with `CompressionFailed`, and `decode_share_payload` surfaces exactly
that `CompressionFailed` on such a malformed input (both variants map
to the same machine code `invalid_payload`). -/
theorem c3_decompression_errors (E : Externals) (c out : List Nat)
    (ended : Bool) (hrun : E.inflateRun c = (out, ended)) :
    (out.length > MAX_DECOMPRESSED_SIZE →
      decompress_raw E c = .error .InvalidPayload) ∧
    (out.length ≤ MAX_DECOMPRESSED_SIZE → ended = false →
      decompress_raw E c = .error .CompressionFailed) ∧
    (∀ (now : Nat) (data kp : List Nat) (isP : Bool) (decrypted : List Nat)
       (ev : Nat),
       decode_decrypt_stage E data kp isP = .ok (decrypted, ev) →
       E.inflateRun decrypted = (out, false) →
       out.length ≤ MAX_DECOMPRESSED_SIZE →
       decode_share_payload E now data kp isP = .error .CompressionFailed) := by
  refine ⟨?_, ?_, ?_⟩
  · intro hbig
    unfold decompress_raw
    rw [hrun]
    dsimp only
    rw [if_pos hbig]
  · intro hsmall hend
    unfold decompress_raw
    rw [hrun, hend]
    dsimp only
    rw [if_neg (by omega)]
    simp
  · intro now data kp isP decrypted ev hstage hrun2 hsmall
    unfold decode_share_payload
    rw [hstage]
    dsimp only
    unfold decompress_raw
    rw [hrun2]
    dsimp only
    rw [if_neg (by omega)]
    simp

/-- C3 witness: the amended theorem applied at concrete inputs — the
oversize branch on `bigExt` and the invalid-stream branch on `invExt`. -/
theorem c3_witness :
    decompress_raw bigExt [] = .error .InvalidPayload ∧
    decompress_raw invExt [255, 254, 253] = .error .CompressionFailed :=
  ⟨(c3_decompression_errors bigExt []
      (List.replicate (MAX_DECOMPRESSED_SIZE + 1) 0) true rfl).1
      (by simp),
   (c3_decompression_errors invExt [255, 254, 253] [] false rfl).2.1
      (by simp) rfl⟩

/-- C2 witness: a concrete random-key payload created at timestamp 1000
is not expired when decoded at 1299 or 1300 (ages 299 and 300) and is
`Expired` at 1301 (age 301), the latter via the C2 theorem. -/
theorem c2_witness :
    decode_share_payload toyExt 1301
      (encode_base64url (List.replicate 12 0 ++
        ([1, 0, 0, 0, 0, 0, 0, 3, 232, 123, 125] ++ List.replicate 16 0)))
      (encode_base64url (List.replicate 32 0)) false = .error .Expired ∧
    decode_share_payload toyExt 1300
      (encode_base64url (List.replicate 12 0 ++
        ([1, 0, 0, 0, 0, 0, 0, 3, 232, 123, 125] ++ List.replicate 16 0)))
      (encode_base64url (List.replicate 32 0)) false =
      .ok ⟨[123, 125], 1000, "quick"⟩ ∧
    decode_share_payload toyExt 1299
      (encode_base64url (List.replicate 12 0 ++
        ([1, 0, 0, 0, 0, 0, 0, 3, 232, 123, 125] ++ List.replicate 16 0)))
      (encode_base64url (List.replicate 32 0)) false =
      .ok ⟨[123, 125], 1000, "quick"⟩ := by
  refine ⟨?_, by decide, by decide⟩
  exact (c2_expiration toyExt 1301 _ _ false
    [1, 0, 0, 0, 0, 0, 0, 3, 232, 123, 125] 1
    [1, 0, 0, 0, 0, 0, 0, 3, 232, 123, 125] 1 1000 [123, 125]
    (by decide) (by decide) (by decide) rfl).1.mpr (by decide)

-- ============================================================================
-- Claim C4 — payload size limit
-- ============================================================================

theorem size_check_shape (d : List Nat) (k : Option (List Nat)) :
    ((if d.length > MAX_PAYLOAD_CHARS
        then (.error .PayloadTooLarge : Except ShareError SharePayload)
        else .ok ⟨d, k⟩) = .error .PayloadTooLarge ↔
      MAX_PAYLOAD_CHARS < d.length) ∧
    (∀ pl, (if d.length > MAX_PAYLOAD_CHARS
        then (.error .PayloadTooLarge : Except ShareError SharePayload)
        else .ok ⟨d, k⟩) = .ok pl →
      pl.data = d ∧ pl.data.length ≤ MAX_PAYLOAD_CHARS) := by
  split_ifs with h
  · constructor
    · simp only [gt_iff_lt] at h
      simp [h]
    · intro pl hc
      simp at hc
  · constructor
    · simp only [gt_iff_lt] at h
      constructor
      · intro hc
        simp at hc
      · intro hc
        omega
    · intro pl hc
      injection hc with hc
      subst hc
      refine ⟨rfl, ?_⟩
      simp only [gt_iff_lt] at h
      dsimp only
      omega

/-- C4: for non-empty json, in both key-sourcing modes,
`create_share_payload` fails with `PayloadTooLarge` exactly when the
base64url-encoded payload string (`share_data`, the string the encoder
builds after encoding) exceeds 6000 characters, and a successful encode
returns exactly that string, of length at most 6000. -/
theorem c4_payload_size (E : Externals) (g : Nat → Nat) (ts : Nat)
    (j : List Nat) (p : Option (List Nat)) (hj : j ≠ []) :
    (create_share_payload E g ts j p = .error .PayloadTooLarge ↔
      MAX_PAYLOAD_CHARS < (share_data E g ts j p).length) ∧
    (∀ pl, create_share_payload E g ts j p = .ok pl →
      pl.data = share_data E g ts j p ∧
      pl.data.length ≤ MAX_PAYLOAD_CHARS) := by
  unfold create_share_payload share_data compress_with_header
    derive_key_from_passphrase encrypt_payload generate_random_key
  rw [if_neg hj]
  by_cases hP : is_passphrase_mode p
  · simp only [hP, if_true]
    exact size_check_shape _ _
  · simp only [hP, if_false, Bool.false_eq_true]
    exact size_check_shape _ _

/-- C4 witness: a small concrete json stays under the limit and
round-trips the encoded string through the success conjunct. -/
theorem c4_witness :
    create_share_payload toyExt (fun _ => 0) 1000 [123, 125] none =
      .ok ⟨share_data toyExt (fun _ => 0) 1000 [123, 125] none, some (encode_base64url (randBytes (fun _ => 0) 32))⟩ ∧
    (share_data toyExt (fun _ => 0) 1000 [123, 125] none).length ≤ MAX_PAYLOAD_CHARS := by
  have h := (c4_payload_size toyExt (fun _ => 0) 1000 [123, 125] none
    (by decide)).2
    ⟨share_data toyExt (fun _ => 0) 1000 [123, 125] none, some (encode_base64url (randBytes (fun _ => 0) 32))⟩
    (by decide)
  exact ⟨by decide, h.2⟩

-- ============================================================================
-- Claim C5 — version check
-- ============================================================================

/-- C5: the version the decoder expects is the one implied by the
`is_passphrase` argument (`0x02` for passphrase mode, `0x01` for
random-key mode), and whenever the version byte extracted from the
decompressed frame differs from it, `decode_share_payload` fails with
`InvalidPayload`; hence a payload framed in one mode can never decode
under the opposite mode flag once its authentic frame is recovered. -/
theorem c5_version_check (E : Externals) (now : Nat) (data kp : List Nat)
    (isP : Bool) (decrypted : List Nat) (ev : Nat) (decompressed : List Nat)
    (v t : Nat) (rest : List Nat)
    (hstage : decode_decrypt_stage E data kp isP = .ok (decrypted, ev))
    (hdec : decompress_raw E decrypted = .ok decompressed)
    (hhdr : extract_header decompressed = .ok (v, t, rest))
    (hv : v ≠ ev) :
    ev = (if isP then VERSION_PASSPHRASE else VERSION_RANDOM_KEY) ∧
    decode_share_payload E now data kp isP = .error .InvalidPayload := by
  constructor
  · unfold decode_decrypt_stage at hstage
    repeat' split at hstage
    all_goals simp_all
  · unfold decode_share_payload
    rw [hstage]
    dsimp only
    rw [hdec]
    dsimp only
    rw [hhdr]
    dsimp only
    rw [if_pos hv]

/-- C5 witness: a concrete payload whose authentic frame carries
version `0x02` decoded with `is_passphrase = false` (expected version
`0x01`) fails with `InvalidPayload`. -/
theorem c5_witness :
    decode_share_payload toyExt 1000
      (encode_base64url (List.replicate 12 0 ++
        ([2, 0, 0, 0, 0, 0, 0, 3, 232, 123, 125] ++ List.replicate 16 0)))
      (encode_base64url (List.replicate 32 0)) false =
      .error .InvalidPayload :=
  (c5_version_check toyExt 1000 _ _ false
    [2, 0, 0, 0, 0, 0, 0, 3, 232, 123, 125] 1
    [2, 0, 0, 0, 0, 0, 0, 3, 232, 123, 125] 2 1000 [123, 125]
    (by decide) (by decide) (by decide) (by decide)).2

-- ============================================================================
-- Claim C6 — encoder mode selection and output shape
-- ============================================================================

/-- C6: for non-empty json, `create_share_payload` uses passphrase
mode with frame version `0x02` exactly when the passphrase argument is
present and non-empty, and random-key mode with frame version `0x01`
otherwise; on success, passphrase mode returns `key = none` while
random-key mode returns `key = some (base64url of the 32 random key
bytes)` — the frame version appears explicitly at the head of the
deflated frame in each branch. -/
theorem c6_mode_selection (E : Externals) (g : Nat → Nat) (ts : Nat)
    (j : List Nat) (p : Option (List Nat)) (pl : SharePayload) (hj : j ≠ [])
    (hok : create_share_payload E g ts j p = .ok pl) :
    (pl.key = none ↔ is_passphrase_mode p = true) ∧
    (is_passphrase_mode p = true →
      pl.key = none ∧
      pl.data = encode_base64url (randBytes g SALT_LENGTH ++
        (randBytes (advance g SALT_LENGTH) NONCE_LENGTH ++
          E.aesEncrypt (E.pbkdf2 (p.getD []) (randBytes g SALT_LENGTH))
            (randBytes (advance g SALT_LENGTH) NONCE_LENGTH)
            (E.deflate (VERSION_PASSPHRASE :: u64BE ts ++ j))))) ∧
    (is_passphrase_mode p = false →
      pl.key = some (encode_base64url (randBytes g 32)) ∧
      pl.data = encode_base64url (randBytes (advance g 32) NONCE_LENGTH ++
        E.aesEncrypt (randBytes g 32) (randBytes (advance g 32) NONCE_LENGTH)
          (E.deflate (VERSION_RANDOM_KEY :: u64BE ts ++ j)))) := by
  unfold create_share_payload compress_with_header derive_key_from_passphrase
    encrypt_payload generate_random_key at hok
  rw [if_neg hj] at hok
  by_cases hP : is_passphrase_mode p
  · simp only [hP, if_true] at hok
    split at hok
    · exact absurd hok (by simp)
    · injection hok with h
      subst h
      refine ⟨by simp [hP], fun _ => ⟨rfl, rfl⟩, fun hc => ?_⟩
      rw [hP] at hc
      simp at hc
  · simp only [hP, if_false, Bool.false_eq_true] at hok
    split at hok
    · exact absurd hok (by simp)
    · injection hok with h
      subst h
      refine ⟨by simp [hP], fun hc => ?_, fun _ => ⟨rfl, rfl⟩⟩
      rw [hc] at hP
      simp at hP

def c6pl : SharePayload :=
  ⟨encode_base64url (randBytes (advance (fun _ => 0) 32) NONCE_LENGTH ++
      toyExt.aesEncrypt (randBytes (fun _ => 0) 32)
        (randBytes (advance (fun _ => 0) 32) NONCE_LENGTH)
        (toyExt.deflate (VERSION_RANDOM_KEY :: u64BE 1000 ++ [123, 125]))),
    some (encode_base64url (randBytes (fun _ => 0) 32))⟩

/-- C6 witness: a concrete random-key encode returns the base64url of
the 32 drawn key bytes and the version-1 frame. -/
theorem c6_witness :
    c6pl.key = some (encode_base64url (randBytes (fun _ => 0) 32)) ∧
    c6pl.data = encode_base64url (randBytes (advance (fun _ => 0) 32) NONCE_LENGTH ++
      toyExt.aesEncrypt (randBytes (fun _ => 0) 32)
        (randBytes (advance (fun _ => 0) 32) NONCE_LENGTH)
        (toyExt.deflate (VERSION_RANDOM_KEY :: u64BE 1000 ++ [123, 125]))) :=
  (c6_mode_selection toyExt (fun _ => 0) 1000 [123, 125] none c6pl
    (by decide) (by decide)).2.2 rfl

-- ============================================================================
-- Claim C7 — decoder input preconditions
-- ============================================================================

/-- C7: in passphrase mode the decoder requires at least
`salt(16) + nonce(12) + 1 = 29` decoded bytes, else `InvalidPayload`,
and otherwise splits off the first 16 bytes as the PBKDF2 salt and
decrypts the remainder; in random-key mode it base64url-decodes the
supplied key and requires exactly 32 bytes, else `InvalidPayload`; in
both modes `decrypt_payload` takes the first 12 bytes of its
ciphertext input as the nonce and the rest as the authenticated
ciphertext. -/
theorem c7_decoder_preconditions :
    (∀ (E : Externals) (now : Nat) (data p raw : List Nat),
       decode_base64url data = .ok raw →
       raw.length < SALT_LENGTH + NONCE_LENGTH + 1 →
       decode_share_payload E now data p true = .error .InvalidPayload) ∧
    (∀ (E : Externals) (now : Nat) (data k raw kb : List Nat),
       decode_base64url data = .ok raw →
       decode_base64url k = .ok kb → kb.length ≠ 32 →
       decode_share_payload E now data k false = .error .InvalidPayload) ∧
    (∀ (E : Externals) (data p raw : List Nat),
       decode_base64url data = .ok raw →
       ¬ raw.length < SALT_LENGTH + NONCE_LENGTH + 1 →
       decode_decrypt_stage E data p true =
         (match decrypt_payload E (raw.drop SALT_LENGTH)
             (E.pbkdf2 p (raw.take SALT_LENGTH)) with
          | .error e => .error e
          | .ok d => .ok (d, VERSION_PASSPHRASE))) ∧
    (∀ (E : Externals) (ct kb : List Nat), kb.length = 32 →
       NONCE_LENGTH + 1 ≤ ct.length →
       decrypt_payload E ct kb =
         (match E.aesDecrypt kb (ct.take NONCE_LENGTH) (ct.drop NONCE_LENGTH) with
          | some pt => .ok pt
          | none => .error .DecryptionFailed)) := by
  refine ⟨?_, ?_, ?_, ?_⟩
  · intro E now data p raw hraw hlen
    have hstage : decode_decrypt_stage E data p true = .error .InvalidPayload := by
      unfold decode_decrypt_stage
      rw [hraw]
      dsimp only
      rw [if_pos hlen]
      simp
    unfold decode_share_payload
    rw [hstage]
  · intro E now data k raw kb hraw hk hkb
    have hstage : decode_decrypt_stage E data k false = .error .InvalidPayload := by
      unfold decode_decrypt_stage
      rw [hraw]
      dsimp only
      rw [hk]
      dsimp only
      rw [if_pos hkb]
      simp
    unfold decode_share_payload
    rw [hstage]
  · intro E data p raw hraw hlen
    unfold decode_decrypt_stage
    rw [hraw]
    dsimp only
    rw [if_neg hlen, List.splitAt_eq]
    dsimp only [derive_key_from_passphrase]
    simp
  · intro E ct kb hkb hct
    unfold decrypt_payload
    rw [if_neg (by omega), if_neg (by omega), List.splitAt_eq]

/-- C7 witness: the four conjuncts applied at concrete inputs — a
20-byte passphrase-mode payload is too short, a 3-byte random key is
rejected, and the salt/nonce splits are the take/drop at 16 and 12. -/
theorem c7_witness :
    decode_share_payload toyExt 0 (encode_base64url (List.replicate 20 0)) []
      true = .error .InvalidPayload ∧
    decode_share_payload toyExt 0 (encode_base64url (List.replicate 29 0))
      (encode_base64url [1, 2, 3]) false = .error .InvalidPayload ∧
    decode_decrypt_stage toyExt (encode_base64url (List.replicate 29 0)) [] true =
      (match decrypt_payload toyExt ((List.replicate 29 0).drop SALT_LENGTH)
          (toyExt.pbkdf2 [] ((List.replicate 29 0).take SALT_LENGTH)) with
       | .error e => .error e
       | .ok d => .ok (d, VERSION_PASSPHRASE)) ∧
    decrypt_payload toyExt (List.replicate 13 0) (List.replicate 32 0) =
      (match toyExt.aesDecrypt (List.replicate 32 0)
          ((List.replicate 13 0).take NONCE_LENGTH)
          ((List.replicate 13 0).drop NONCE_LENGTH) with
       | some pt => .ok pt
       | none => .error .DecryptionFailed) :=
  ⟨c7_decoder_preconditions.1 toyExt 0 (encode_base64url (List.replicate 20 0))
      [] (List.replicate 20 0) (by decide) (by decide),
   c7_decoder_preconditions.2.1 toyExt 0 (encode_base64url (List.replicate 29 0))
      (encode_base64url [1, 2, 3]) (List.replicate 29 0) [1, 2, 3]
      (by decide) (by decide) (by decide),
   c7_decoder_preconditions.2.2.1 toyExt (encode_base64url (List.replicate 29 0))
      [] (List.replicate 29 0) (by decide) (by decide),
   c7_decoder_preconditions.2.2.2 toyExt (List.replicate 13 0)
      (List.replicate 32 0) (by decide) (by decide)⟩

-- ============================================================================
-- Claim C10 — KeyDerivationFailed is unreachable
-- ============================================================================

/-- Observer: whether a pipeline result is the `KeyDerivationFailed`
variant. -/
def is_key_derivation_error {α : Type} : Except ShareError α → Bool
  | .error .KeyDerivationFailed => true
  | _ => false

theorem ikde_error_transfer {α β : Type} {e : ShareError}
    (h : is_key_derivation_error (.error e : Except ShareError α) = false) :
    is_key_derivation_error (.error e : Except ShareError β) = false := by
  cases e <;> first | rfl | simp [is_key_derivation_error] at h

theorem ikde_decode_base64url (s : List Nat) :
    is_key_derivation_error (decode_base64url s) = false := by
  unfold decode_base64url
  cases decode_base64url_aux s <;> rfl

theorem ikde_decrypt_payload (E : Externals) (ct k : List Nat) :
    is_key_derivation_error (decrypt_payload E ct k) = false := by
  unfold decrypt_payload
  split_ifs
  · rfl
  · rfl
  · rw [List.splitAt_eq]
    dsimp only
    cases E.aesDecrypt k (ct.take NONCE_LENGTH) (ct.drop NONCE_LENGTH) <;> rfl

theorem ikde_stage (E : Externals) (d k : List Nat) (b : Bool) :
    is_key_derivation_error (decode_decrypt_stage E d k b) = false := by
  unfold decode_decrypt_stage
  cases hdb : decode_base64url d with
  | error e =>
    have h := ikde_decode_base64url d
    rw [hdb] at h
    exact ikde_error_transfer h
  | ok raw =>
    dsimp only
    cases b
    · rw [if_neg (by decide)]
      cases hk2 : decode_base64url k with
      | error e =>
        have h := ikde_decode_base64url k
        rw [hk2] at h
        exact ikde_error_transfer h
      | ok kb =>
        dsimp only
        by_cases hlen : kb.length ≠ 32
        · rw [if_pos hlen]
          rfl
        · rw [if_neg hlen]
          cases hdp : decrypt_payload E raw kb with
          | error e =>
            have h := ikde_decrypt_payload E raw kb
            rw [hdp] at h
            exact ikde_error_transfer h
          | ok pt => rfl
    · rw [if_pos rfl]
      by_cases hlen : raw.length < SALT_LENGTH + NONCE_LENGTH + 1
      · rw [if_pos hlen]
        rfl
      · rw [if_neg hlen, List.splitAt_eq]
        dsimp only [derive_key_from_passphrase]
        cases hdp : decrypt_payload E (raw.drop SALT_LENGTH)
            (E.pbkdf2 k (raw.take SALT_LENGTH)) with
        | error e =>
          have h := ikde_decrypt_payload E (raw.drop SALT_LENGTH)
            (E.pbkdf2 k (raw.take SALT_LENGTH))
          rw [hdp] at h
          exact ikde_error_transfer h
        | ok pt => rfl

theorem ikde_decompress_raw (E : Externals) (c : List Nat) :
    is_key_derivation_error (decompress_raw E c) = false := by
  unfold decompress_raw
  rcases h : E.inflateRun c with ⟨out, ended⟩
  dsimp only
  split_ifs <;> rfl

theorem ikde_extract_header (d : List Nat) :
    is_key_derivation_error (extract_header d) = false := by
  unfold extract_header
  split_ifs
  · rfl
  · cases d <;> rfl

theorem ikde_validate_timestamp (now t : Nat) :
    is_key_derivation_error (validate_timestamp now t) = false := by
  unfold validate_timestamp
  split_ifs <;> rfl

/-- C10: `derive_key_from_passphrase` returns `Ok` for every passphrase
and salt, and consequently neither `create_share_payload` nor
`decode_share_payload` ever returns the `KeyDerivationFailed` variant,
on any input and for any model of the external crates. -/
theorem c10_kdf_unreachable :
    (∀ (E : Externals) (p s : List Nat),
       derive_key_from_passphrase E p s = .ok (E.pbkdf2 p s)) ∧
    (∀ (E : Externals) (g : Nat → Nat) (ts : Nat) (j : List Nat)
       (p : Option (List Nat)),
       is_key_derivation_error (create_share_payload E g ts j p) = false) ∧
    (∀ (E : Externals) (now : Nat) (d k : List Nat) (b : Bool),
       is_key_derivation_error (decode_share_payload E now d k b) = false) := by
  refine ⟨fun E p s => rfl, ?_, ?_⟩
  · intro E g ts j p
    unfold create_share_payload compress_with_header
      derive_key_from_passphrase encrypt_payload generate_random_key
    dsimp only
    split_ifs <;> rfl
  · intro E now d k b
    unfold decode_share_payload
    cases hstage : decode_decrypt_stage E d k b with
    | error e =>
      have h := ikde_stage E d k b
      rw [hstage] at h
      exact ikde_error_transfer h
    | ok pr =>
      rcases pr with ⟨decrypted, ev⟩
      dsimp only
      cases hdec : decompress_raw E decrypted with
      | error e =>
        have h := ikde_decompress_raw E decrypted
        rw [hdec] at h
        exact ikde_error_transfer h
      | ok decompressed =>
        dsimp only
        cases hhdr : extract_header decompressed with
        | error e =>
          have h := ikde_extract_header decompressed
          rw [hhdr] at h
          exact ikde_error_transfer h
        | ok tr =>
          rcases tr with ⟨v, t, rest⟩
          dsimp only
          by_cases hv : v ≠ ev
          · rw [if_pos hv]
            rfl
          · rw [if_neg hv]
            cases hval : validate_timestamp now t with
            | error e =>
              have h := ikde_validate_timestamp now t
              rw [hval] at h
              exact ikde_error_transfer h
            | ok u =>
              dsimp only
              split_ifs <;> rfl

-- ============================================================================
-- Claim C1 — round trip
-- ============================================================================

theorem decrypt_payload_ok (E : Externals) (kb nonce frameC : List Nat)
    (hkb : kb.length = 32) (hnl : nonce.length = NONCE_LENGTH)
    (hlen : (E.aesEncrypt kb nonce frameC).length = frameC.length + 16)
    (hinv : E.aesDecrypt kb nonce (E.aesEncrypt kb nonce frameC) = some frameC) :
    decrypt_payload E (nonce ++ E.aesEncrypt kb nonce frameC) kb = .ok frameC := by
  unfold decrypt_payload
  rw [if_neg (by omega)]
  rw [if_neg (by simp only [List.length_append, hnl, hlen, NONCE_LENGTH]; omega)]
  rw [List.splitAt_eq]
  dsimp only
  rw [List.take_left' hnl, List.drop_left' hnl, hinv]

theorem decompress_raw_deflate (E : Externals) (x : List Nat)
    (hInf : E.inflateRun (E.deflate x) = (x, true))
    (hsize : x.length ≤ MAX_DECOMPRESSED_SIZE) :
    decompress_raw E (E.deflate x) = .ok x := by
  unfold decompress_raw
  rw [hInf]
  dsimp only
  rw [if_neg (by omega)]
  simp

theorem extract_header_frame (v ts : Nat) (j : List Nat) (hts : ts < 2 ^ 64) :
    extract_header (v :: u64BE ts ++ j) = .ok (v, ts, j) := by
  unfold extract_header
  rw [if_neg (by simp [u64BE, HEADER_LENGTH])]
  change Except.ok (v, fromBE8 (List.take 8 (u64BE ts ++ j)),
    List.drop 8 (u64BE ts ++ j)) = _
  rw [List.take_left' (u64BE_length ts), List.drop_left' (u64BE_length ts),
    fromBE8_u64BE ts hts]

theorem validate_timestamp_ok (now t : Nat) (h : now - t ≤ EXPIRATION_SECS) :
    validate_timestamp now t = .ok () := by
  unfold validate_timestamp
  rw [if_neg (by omega)]

theorem stage_random_ok (E : Externals) (kb nonce frameC : List Nat)
    (hctb : ∀ b ∈ nonce ++ E.aesEncrypt kb nonce frameC, b < 256)
    (hkbb : ∀ b ∈ kb, b < 256)
    (hkb : kb.length = 32) (hnl : nonce.length = NONCE_LENGTH)
    (hlen : (E.aesEncrypt kb nonce frameC).length = frameC.length + 16)
    (hinv : E.aesDecrypt kb nonce (E.aesEncrypt kb nonce frameC) = some frameC) :
    decode_decrypt_stage E
      (encode_base64url (nonce ++ E.aesEncrypt kb nonce frameC))
      (encode_base64url kb) false = .ok (frameC, VERSION_RANDOM_KEY) := by
  unfold decode_decrypt_stage
  rw [decode_encode_base64url _ hctb]
  dsimp only
  rw [if_neg (by decide)]
  rw [decode_encode_base64url _ hkbb]
  dsimp only
  rw [if_neg (by omega)]
  rw [decrypt_payload_ok E kb nonce frameC hkb hnl hlen hinv]

theorem stage_passphrase_ok (E : Externals) (pass salt nonce frameC : List Nat)
    (hpb : ∀ b ∈ salt ++ (nonce ++
      E.aesEncrypt (E.pbkdf2 pass salt) nonce frameC), b < 256)
    (hsl : salt.length = SALT_LENGTH) (hnl : nonce.length = NONCE_LENGTH)
    (hkb : (E.pbkdf2 pass salt).length = 32)
    (hlen : (E.aesEncrypt (E.pbkdf2 pass salt) nonce frameC).length =
      frameC.length + 16)
    (hinv : E.aesDecrypt (E.pbkdf2 pass salt) nonce
      (E.aesEncrypt (E.pbkdf2 pass salt) nonce frameC) = some frameC) :
    decode_decrypt_stage E
      (encode_base64url (salt ++ (nonce ++
        E.aesEncrypt (E.pbkdf2 pass salt) nonce frameC)))
      pass true = .ok (frameC, VERSION_PASSPHRASE) := by
  unfold decode_decrypt_stage
  rw [decode_encode_base64url _ hpb]
  dsimp only
  rw [if_pos rfl]
  rw [if_neg (by
    simp only [List.length_append, hsl, hnl, hlen, SALT_LENGTH, NONCE_LENGTH]
    omega)]
  rw [List.splitAt_eq]
  dsimp only
  rw [List.take_left' hsl, List.drop_left' hsl]
  dsimp only [derive_key_from_passphrase]
  rw [decrypt_payload_ok E (E.pbkdf2 pass salt) nonce frameC hkb hnl hlen hinv]

/-- C1: round trip.  For every model of the external crates satisfying
their contracts (DEFLATE inverts, AES-GCM decryption inverts encryption
with matching key and nonce and adds a 16-byte tag, PBKDF2 yields
32 bytes), every byte-valued entropy stream, every non-empty valid-UTF-8
json (multi-byte content included), and every passphrase option: if
`create_share_payload` succeeds, then decoding the returned data
(supplying the passphrase when one was given, otherwise the returned
key, with `is_passphrase` set accordingly) at any decode time within
300 seconds of the encode timestamp succeeds and returns exactly the
original json, `created_at` equal to the encode timestamp, and mode
`"protected"` for the version-0x02 passphrase payload and `"quick"` for
the version-0x01 random-key payload.  (The decompressed frame, 9 bytes
of header plus the json, must fit the 10 MiB decompression bound —
guaranteed in the real system by DEFLATE's maximal expansion ratio
together with the 6000-character encode limit.) -/
theorem c1_round_trip (E : Externals) (g : Nat → Nat) (ts now : Nat)
    (j : List Nat) (p : Option (List Nat)) (pl : SharePayload)
    (hg : ∀ i, g i < 256)
    (hj : j ≠ []) (hjb : ∀ b ∈ j, b < 256) (hju : isValidUtf8 j = true)
    (hts : ts < 2 ^ 64) (hnow : now - ts ≤ EXPIRATION_SECS)
    (hsize : HEADER_LENGTH + j.length ≤ MAX_DECOMPRESSED_SIZE)
    (hInf : ∀ x, E.inflateRun (E.deflate x) = (x, true))
    (hDefB : ∀ x, (∀ b ∈ x, b < 256) → ∀ b ∈ E.deflate x, b < 256)
    (hAesInv : ∀ k n d2, E.aesDecrypt k n (E.aesEncrypt k n d2) = some d2)
    (hAesLen : ∀ k n d2, (E.aesEncrypt k n d2).length = d2.length + 16)
    (hAesB : ∀ k n d2, (∀ b ∈ d2, b < 256) → ∀ b ∈ E.aesEncrypt k n d2, b < 256)
    (hKdfLen : ∀ pp s, (E.pbkdf2 pp s).length = 32)
    (hok : create_share_payload E g ts j p = .ok pl) :
    decode_share_payload E now pl.data
      (if is_passphrase_mode p then p.getD [] else pl.key.getD [])
      (is_passphrase_mode p) =
      .ok ⟨j, ts, if is_passphrase_mode p then "protected" else "quick"⟩ := by
  unfold create_share_payload compress_with_header derive_key_from_passphrase
    encrypt_payload generate_random_key at hok
  rw [if_neg hj] at hok
  by_cases hP : is_passphrase_mode p
  · simp only [hP, if_true] at hok ⊢
    split at hok
    · exact absurd hok (by simp)
    · injection hok with hpl
      subst hpl
      dsimp only
      have hfb : ∀ b ∈ (VERSION_PASSPHRASE :: u64BE ts ++ j), b < 256 := by
        intro b hb
        rcases List.mem_cons.mp hb with rfl | hb
        · decide
        · rcases List.mem_append.mp hb with hb | hb
          · exact u64BE_lt ts b hb
          · exact hjb b hb
      have hfcb : ∀ b ∈ E.deflate (VERSION_PASSPHRASE :: u64BE ts ++ j),
          b < 256 := hDefB _ hfb
      have hpb : ∀ b ∈ randBytes g SALT_LENGTH ++
          (randBytes (advance g SALT_LENGTH) NONCE_LENGTH ++
            E.aesEncrypt (E.pbkdf2 (p.getD []) (randBytes g SALT_LENGTH))
              (randBytes (advance g SALT_LENGTH) NONCE_LENGTH)
              (E.deflate (VERSION_PASSPHRASE :: u64BE ts ++ j))), b < 256 := by
        intro b hb
        rcases List.mem_append.mp hb with hb | hb
        · exact randBytes_lt g hg _ b hb
        · rcases List.mem_append.mp hb with hb | hb
          · exact randBytes_lt _ (fun i => hg _) _ b hb
          · exact hAesB _ _ _ hfcb b hb
      have hstage := stage_passphrase_ok E (p.getD []) (randBytes g SALT_LENGTH)
        (randBytes (advance g SALT_LENGTH) NONCE_LENGTH)
        (E.deflate (VERSION_PASSPHRASE :: u64BE ts ++ j))
        hpb (randBytes_length _ _) (randBytes_length _ _) (hKdfLen _ _)
        (hAesLen _ _ _) (hAesInv _ _ _)
      have hflen : (VERSION_PASSPHRASE :: u64BE ts ++ j).length ≤
          MAX_DECOMPRESSED_SIZE := by
        simp only [List.length_cons, List.length_append, u64BE_length]
        simp only [HEADER_LENGTH, MAX_DECOMPRESSED_SIZE] at hsize ⊢
        omega
      unfold decode_share_payload
      rw [hstage]
      dsimp only
      rw [decompress_raw_deflate E _ (hInf _) hflen]
      dsimp only
      rw [extract_header_frame VERSION_PASSPHRASE ts j hts]
      dsimp only
      rw [if_neg (by simp)]
      rw [validate_timestamp_ok now ts hnow]
      dsimp only
      rw [if_pos hju]
      rw [if_neg (by decide)]
  · simp only [hP, if_false, Bool.false_eq_true] at hok ⊢
    split at hok
    · exact absurd hok (by simp)
    · injection hok with hpl
      subst hpl
      dsimp only
      simp only [Option.getD_some]
      have hfb : ∀ b ∈ (VERSION_RANDOM_KEY :: u64BE ts ++ j), b < 256 := by
        intro b hb
        rcases List.mem_cons.mp hb with rfl | hb
        · decide
        · rcases List.mem_append.mp hb with hb | hb
          · exact u64BE_lt ts b hb
          · exact hjb b hb
      have hfcb : ∀ b ∈ E.deflate (VERSION_RANDOM_KEY :: u64BE ts ++ j),
          b < 256 := hDefB _ hfb
      have hctb : ∀ b ∈ randBytes (advance g 32) NONCE_LENGTH ++
          E.aesEncrypt (randBytes g 32) (randBytes (advance g 32) NONCE_LENGTH)
            (E.deflate (VERSION_RANDOM_KEY :: u64BE ts ++ j)), b < 256 := by
        intro b hb
        rcases List.mem_append.mp hb with hb | hb
        · exact randBytes_lt _ (fun i => hg _) _ b hb
        · exact hAesB _ _ _ hfcb b hb
      have hstage := stage_random_ok E (randBytes g 32)
        (randBytes (advance g 32) NONCE_LENGTH)
        (E.deflate (VERSION_RANDOM_KEY :: u64BE ts ++ j))
        hctb (randBytes_lt g hg 32) (randBytes_length _ _) (randBytes_length _ _)
        (hAesLen _ _ _) (hAesInv _ _ _)
      have hflen : (VERSION_RANDOM_KEY :: u64BE ts ++ j).length ≤
          MAX_DECOMPRESSED_SIZE := by
        simp only [List.length_cons, List.length_append, u64BE_length]
        simp only [HEADER_LENGTH, MAX_DECOMPRESSED_SIZE] at hsize ⊢
        omega
      unfold decode_share_payload
      rw [hstage]
      dsimp only
      rw [decompress_raw_deflate E _ (hInf _) hflen]
      dsimp only
      rw [extract_header_frame VERSION_RANDOM_KEY ts j hts]
      dsimp only
      rw [if_neg (by simp)]
      rw [validate_timestamp_ok now ts hnow]
      dsimp only
      rw [if_pos hju]
      rw [if_pos rfl]

/-- Concrete multi-byte UTF-8 json used by the round-trip witness:
the bytes of the string made of a double quote, U+1F389 (a four-byte
code point) and a closing double quote. -/
def c1json : List Nat := [34, 240, 159, 142, 137, 34]

def c1pl : SharePayload :=
  ⟨encode_base64url (randBytes (advance (fun _ => 0) 32) NONCE_LENGTH ++
      toyExt.aesEncrypt (randBytes (fun _ => 0) 32)
        (randBytes (advance (fun _ => 0) 32) NONCE_LENGTH)
        (toyExt.deflate (VERSION_RANDOM_KEY :: u64BE 1000 ++ c1json))),
    some (encode_base64url (randBytes (fun _ => 0) 32))⟩

def c1plp : SharePayload :=
  ⟨encode_base64url (randBytes (fun _ => 0) SALT_LENGTH ++
      (randBytes (advance (fun _ => 0) SALT_LENGTH) NONCE_LENGTH ++
        toyExt.aesEncrypt
          (toyExt.pbkdf2 [112, 119] (randBytes (fun _ => 0) SALT_LENGTH))
          (randBytes (advance (fun _ => 0) SALT_LENGTH) NONCE_LENGTH)
          (toyExt.deflate (VERSION_PASSPHRASE :: u64BE 1000 ++ c1json)))),
    none⟩

/-- C1 witness: the round trip at a concrete multi-byte json, in both
key-sourcing modes, with encode timestamp 1000 and decode time 1300. -/
theorem c1_witness :
    decode_share_payload toyExt 1300 c1pl.data (c1pl.key.getD []) false =
      .ok ⟨c1json, 1000, "quick"⟩ ∧
    decode_share_payload toyExt 1300 c1plp.data [112, 119] true =
      .ok ⟨c1json, 1000, "protected"⟩ := by
  constructor
  · exact c1_round_trip toyExt (fun _ => 0) 1000 1300 c1json none c1pl
      (fun _ => by show (0 : Nat) < 256; decide) (by decide) (by decide)
      (by decide) (by decide)
      (by decide) (by decide)
      toyExt_inflate_deflate toyExt_deflate_bytes toyExt_aes_inv toyExt_aes_len
      toyExt_aes_bytes toyExt_pbkdf2_len (by decide)
  · exact c1_round_trip toyExt (fun _ => 0) 1000 1300 c1json (some [112, 119])
      c1plp
      (fun _ => by show (0 : Nat) < 256; decide) (by decide) (by decide)
      (by decide) (by decide)
      (by decide) (by decide)
      toyExt_inflate_deflate toyExt_deflate_bytes toyExt_aes_inv toyExt_aes_len
      toyExt_aes_bytes toyExt_pbkdf2_len (by decide)
